import Mathlib

/-!
Verification of the pycoolmaster client (src/pycoolmaster/__init__.py).

The development shallowly embeds the protocol-exchange and caching logic of
the library: the response-stripping step of `CoolMaster._make_request`, the
`devices` enumeration, and the `CoolMasterDevice` cache with its refresh
algorithm (`_update_status`), staleness guard (`_update_if_needed`), the
`autoupdate_property` accessor wrapper, and the mutating commands.

Python strings become `String`, Python floats and `time.time()` values become
`ℚ`, exceptions become an explicit error type, and the serial bridge becomes
an oracle mapping a request line to either a transport-level failure or a
response body.  Every operation additionally returns the list of request
lines it issued, so that claims about which protocol exchanges happen are
statable.
-/

set_option maxRecDepth 4000

/-! ### Python string primitives used by the source -/

/-- The whitespace class of Python's `\s` (ASCII part), used by `re.split`
and `str.strip` in the source. -/
def isPyWhitespace (c : Char) : Bool :=
  c = ' ' || c = '\t' || c = '\n' || c = '\r' || c = '\x0b' || c = '\x0c'

/-- Python `str.strip()`: remove leading and trailing whitespace. -/
def pyStrip (s : String) : String :=
  String.mk (((s.data.dropWhile isPyWhitespace).reverse.dropWhile isPyWhitespace).reverse)

/-- Worker for `reSplitWs`: scans the character list, collapsing each maximal
whitespace run into one separator, emitting the token accumulated so far.
`inRun` records whether the previous character was part of a whitespace run. -/
def splitWsGo : List Char → Bool → List Char → List String
  | [], _, acc => [String.mk acc.reverse]
  | c :: cs, inRun, acc =>
    if isPyWhitespace c then
      if inRun then splitWsGo cs true acc
      else String.mk acc.reverse :: splitWsGo cs true []
    else splitWsGo cs false (c :: acc)

/-- Python `re.split(r"\s+", s)`: split on maximal whitespace runs.  On the
empty string it returns `[""]`; leading/trailing whitespace yields empty
first/last tokens, exactly as `re.split` does. -/
def reSplitWs (s : String) : List String :=
  splitWsGo s.data false []

/-- Worker for `splitOnCRLF`. -/
def splitCRLFGo : List Char → List Char → List String
  | [], acc => [String.mk acc.reverse]
  | '\r' :: '\n' :: cs, acc => String.mk acc.reverse :: splitCRLFGo cs []
  | c :: cs, acc => splitCRLFGo cs (c :: acc)

/-- Python `s.split("\r\n")`: split on each (non-overlapping, left-to-right)
occurrence of the two-character separator. -/
def splitOnCRLF (s : String) : List String :=
  splitCRLFGo s.data []

/-- Python `s[-1]`, partial: the last character, or `none` on the empty
string (where Python raises IndexError). -/
def pyLast (s : String) : Option Char :=
  s.data.getLast?

/-- Python `s[:-1]`: all but the last character (the empty string stays
empty). -/
def pyDropLast (s : String) : String :=
  String.mk s.data.dropLast

/-- Python `s[:-4]`: all but the last four characters (shorter strings give
`""`, as in Python). -/
def pyDropLast4 (s : String) : String :=
  String.mk (s.data.take (s.data.length - 4))

/-- Python `s[0:3]`: the first up-to-three characters. -/
def pyTake3 (s : String) : String :=
  String.mk (s.data.take 3)

/-- Python `s.endswith(t)` for the fixed suffixes used by the source. -/
def strEndsWith (s t : String) : Bool :=
  t.data.isSuffixOf s.data

/-- Python `s.lower()` (ASCII; the status fields are ASCII). -/
def pyLower (s : String) : String :=
  String.mk (s.data.map Char.toLower)

/-- Python `s.replace(",", ".")` (single-character replacement, so a
character map is exact). -/
def commaToDot (s : String) : String :=
  String.mk (s.data.map (fun c => if c = ',' then '.' else c))

/-- Worker for `replaceUID`: Python `s.replace("UID", uid)`, scanning left to
right and replacing non-overlapping occurrences. -/
def replaceUIDGo (uid : String) : List Char → List Char
  | 'U' :: 'I' :: 'D' :: cs => uid.data ++ replaceUIDGo uid cs
  | c :: cs => c :: replaceUIDGo uid cs
  | [] => []

/-- Python `format_str.replace("UID", uid)` as used by
`CoolMasterDevice._make_request`. -/
def replaceUID (format_str uid : String) : String :=
  String.mk (replaceUIDGo uid format_str.data)

/-- Numeric value of a digit list, most significant first. -/
def digitsVal (ds : List Char) : Nat :=
  ds.foldl (fun a c => 10 * a + (c.toNat - 48)) 0

/-- Python `float(s)` restricted to the plain decimal grammar the status
fields use: optional sign, an integer part and/or a fractional part separated
by `.`, at least one digit overall.  Returns the exact rational value, or
`none` where `float()` raises ValueError. -/
def parseFloat (s : String) : Option ℚ :=
  let (sign, cs) : ℚ × List Char :=
    match s.data with
    | '-' :: rest => (-1, rest)
    | '+' :: rest => (1, rest)
    | cs => (1, cs)
  let intPart := cs.takeWhile Char.isDigit
  let rest := cs.dropWhile Char.isDigit
  match rest with
  | [] => if intPart.isEmpty then none else some (sign * digitsVal intPart)
  | '.' :: frac =>
    if frac.all Char.isDigit && !(intPart.isEmpty && frac.isEmpty) then
      some (sign * ((digitsVal intPart : ℚ) + (digitsVal frac : ℚ) / 10 ^ frac.length))
    else none
  | _ => none

/-! ### Constant tables from the module top level -/

/-- `_SWING_CHAR_TO_NAME` from the source (a Python dict; `None` values
become `none`). -/
def SWING_CHAR_TO_NAME : List (String × Option String) :=
  [("-", none), ("0", none), ("a", some "auto"), ("h", some "horizontal"),
   ("3", some "30"), ("4", some "45"), ("6", some "60"), ("v", some "vertical")]

/-- `_SWING_NAME_TO_CHAR` from the source, in dict insertion order. -/
def SWING_NAME_TO_CHAR : List (String × String) :=
  [("auto", "a"), ("horizontal", "h"), ("30", "3"), ("45", "4"),
   ("60", "6"), ("vertical", "v")]

/-- Dict lookup `_SWING_CHAR_TO_NAME[k]`: `none` is Python's KeyError. -/
def swingCharToName (k : String) : Option (Option String) :=
  SWING_CHAR_TO_NAME.lookup k

/-- Dict lookup `_SWING_NAME_TO_CHAR[k]`. -/
def swingNameToChar (k : String) : Option String :=
  SWING_NAME_TO_CHAR.lookup k

/-- `_FAN_SPEEDS` from the source. -/
def FAN_SPEEDS : List String := ["low", "med", "high", "auto", "top"]

/-- `_MODES` from the source. -/
def MODES : List String := ["auto", "cool", "dry", "fan", "heat"]

/-! ### Errors, transport oracle, device state -/

/-- Failures of the transport exchange itself (`CoolMaster._make_request`):
serial I/O errors, the read timeout, and the prompt-framing check. -/
inductive TransportError where
  | ioError (msg : String)
  | timeout
  | promptNotFound
  deriving DecidableEq, Repr

/-- Exceptions observable from the device-layer operations.  `transport`
wraps a failure of the underlying exchange; the remaining constructors model
the Python exceptions raised by the device code itself: the
`Exception("Unexpected status line format: ...")` of `_update_status`, the
IndexError of `fields[2][-1]` on an empty field, the ValueError of `float()`,
the KeyError of the swing-table lookup, and the ValueError raised by
`set_mode`/`set_swing` on an unrecognized argument. -/
inductive CMError where
  | transport (e : TransportError)
  | statusFormatError (fields : List String)
  | indexError
  | floatParseError (s : String)
  | keyError (k : String)
  | valueError (msg : String)
  deriving DecidableEq, Repr

/-- The bridge as an oracle: one completed `CoolMaster._make_request`
exchange per call, returning the stripped response body or a transport-level
failure. -/
abbrev Responder : Type :=
  String → Except TransportError String

/-- The mutable attributes of a `CoolMasterDevice`.  The snapshot fields are
`Option`s because in Python they do not exist until first assigned; each is a
separate slot because `_update_status` assigns them one at a time.
`swing_mode` is doubly optional: `some none` is Python's `None` value. -/
structure DeviceState where
  uid : String
  last_refresh_time : ℚ
  auto_update : Bool
  is_on : Option Bool
  unit : Option String
  thermostat : Option ℚ
  temperature : Option ℚ
  fan_speed : Option String
  mode : Option String
  swing_mode : Option (Option String)
  deriving DecidableEq, Repr

/-- `CoolMasterDevice.__init__`: uid stored, last refresh time 0, snapshot
fields unset. -/
def initDevice (uid : String) (auto_update : Bool) : DeviceState :=
  { uid := uid, last_refresh_time := 0, auto_update := auto_update,
    is_on := none, unit := none, thermostat := none, temperature := none,
    fan_speed := none, mode := none, swing_mode := none }

/-- Result of a device-layer operation: the exception that propagated (if
any), the device state as left behind (Python objects keep the attribute
assignments made before an exception), and the request lines issued. -/
abbrev OpResult : Type :=
  Option CMError × DeviceState × List String

/-! ### The refresh algorithm (`CoolMasterDevice._update_status`) -/

/-- `CoolMasterDevice._update_status`, translated statement by statement.
`now` stands for `time.time()` at the end of the refresh.  Attribute
assignments are threaded one at a time, exactly as Python executes them, so
a failure part-way leaves the earlier assignments in the returned state. -/
def update_status (resp : Responder) (now : ℚ) (s : DeviceState) : OpResult :=
  let req1 := "stat2 " ++ s.uid
  match resp req1 with
  | .error te => (some (.transport te), s, [req1])
  | .ok status_line =>
    let fields := reSplitWs (pyStrip status_line)
    if fields.length ≠ 8 then
      (some (.statusFormatError fields), s, [req1])
    else
      let s1 := { s with is_on := some (fields.getD 1 "" = "ON") }
      match pyLast (fields.getD 2 "") with
      | none => (some .indexError, s1, [req1])
      | some c2 =>
        let s2 := { s1 with unit := some (if c2 = 'F' then "imperial" else "celsius") }
        match parseFloat (pyDropLast (fields.getD 2 "")) with
        | none => (some (.floatParseError (pyDropLast (fields.getD 2 ""))), s2, [req1])
        | some th =>
          let s3 := { s2 with thermostat := some th }
          match parseFloat (commaToDot (pyDropLast (fields.getD 3 ""))) with
          | none => (some (.floatParseError (commaToDot (pyDropLast (fields.getD 3 "")))), s3, [req1])
          | some te =>
            let s4 := { s3 with temperature := some te }
            let s5 := { s4 with fan_speed := some (pyLower (fields.getD 4 "")) }
            let s6 := { s5 with mode := some (pyLower (fields.getD 5 "")) }
            let req2 := "query " ++ s.uid ++ " s"
            match resp req2 with
            | .error e => (some (.transport e), s6, [req1, req2])
            | .ok swing_line =>
              let s7 := { s6 with swing_mode := some none }
              if swing_line = "" then
                (none, { s7 with last_refresh_time := now }, [req1, req2])
              else
                match swingCharToName (pyStrip swing_line) with
                | none => (some (.keyError (pyStrip swing_line)), s7, [req1, req2])
                | some nm =>
                  (none, { s7 with swing_mode := some nm, last_refresh_time := now }, [req1, req2])

/-- `CoolMasterDevice._update_if_needed`: refresh only when auto-update is on
and the cache is at least 1 second old. -/
def update_if_needed (resp : Responder) (now : ℚ) (s : DeviceState) : OpResult :=
  if s.auto_update = true ∧ 1 ≤ now - s.last_refresh_time then
    update_status resp now s
  else
    (none, s, [])

/-- The `autoupdate_property` wrapper: run `_update_if_needed`, then read the
wrapped attribute off the (possibly refreshed) object.  The last component is
the value the property returns when no exception propagated. -/
def autoupdateGet {α : Type} (field : DeviceState → α) (resp : Responder) (now : ℚ)
    (s : DeviceState) : Option CMError × DeviceState × List String × α :=
  match update_if_needed resp now s with
  | (e, s2, tr) => (e, s2, tr, field s2)

/-- `CoolMasterDevice._clear_status`. -/
def clear_status (s : DeviceState) : DeviceState :=
  { s with last_refresh_time := 0 }

/-! ### Mutating commands -/

/-- Shared shape of the unvalidated mutating commands: format the request,
issue it through `_make_request` (which substitutes `UID`), and on success
clear the cached-status timestamp. -/
def sendAndClear (resp : Responder) (s : DeviceState) (format_str : String) : OpResult :=
  let req := replaceUID format_str s.uid
  match resp req with
  | .error te => (some (.transport te), s, [req])
  | .ok _ => (none, clear_status s, [req])

/-- `CoolMasterDevice.set_fan_speed`: no argument validation. -/
def set_fan_speed (resp : Responder) (s : DeviceState) (value : String) : OpResult :=
  sendAndClear resp s ("fspeed UID " ++ value)

/-- `CoolMasterDevice.set_thermostat`: no argument validation. -/
def set_thermostat (resp : Responder) (s : DeviceState) (value : String) : OpResult :=
  sendAndClear resp s ("temp UID " ++ value)

/-- `CoolMasterDevice.set_mode`: validate against `_MODES` before sending;
on an unrecognized mode raise ValueError without contacting the bridge. -/
def set_mode (resp : Responder) (s : DeviceState) (value : String) : OpResult :=
  if MODES.contains value then
    sendAndClear resp s (value ++ " UID")
  else
    (some (.valueError ("Unrecognized mode " ++ value ++ ". Valid values: " ++
      String.intercalate " " MODES)), s, [])

/-- `CoolMasterDevice.set_swing`: validate against the
`_SWING_NAME_TO_CHAR` keys before sending; on an unrecognized name raise
ValueError without contacting the bridge. -/
def set_swing (resp : Responder) (s : DeviceState) (value : String) : OpResult :=
  match swingNameToChar value with
  | some c => sendAndClear resp s ("swing UID " ++ c)
  | none =>
    (some (.valueError ("Unrecognized swing mode " ++ value ++ ". Valid values: " ++
      String.intercalate " " (SWING_NAME_TO_CHAR.map Prod.fst))), s, [])

/-- `CoolMasterDevice.turn_on`. -/
def turn_on (resp : Responder) (s : DeviceState) : OpResult :=
  sendAndClear resp s "on UID"

/-- `CoolMasterDevice.turn_off`. -/
def turn_off (resp : Responder) (s : DeviceState) : OpResult :=
  sendAndClear resp s "off UID"

/-! ### Transport response stripping and device enumeration -/

/-- The response-stripping step at the end of `CoolMaster._make_request`:
drop the final `>` only when the text ends with the full `\r\n>` sequence,
then drop a trailing `OK\r\n` if present. -/
def stripResponse (response : String) : String :=
  let r1 := if strEndsWith response "\r\n>" then pyDropLast response else response
  if strEndsWith r1 "OK\r\n" then pyDropLast4 r1 else r1

/-- Modelled from the spec: the same stripping step as the specification
words it — "strip the trailing `>` if present, then strip a trailing
`OK\r\n` marker if present" — i.e. the first strip is keyed on a bare
trailing `>` rather than on the full `\r\n>` sequence.  Kept for comparison
with `stripResponse`, which is the code's behaviour. -/
def stripResponseSpec (response : String) : String :=
  let r1 := if strEndsWith response ">" then pyDropLast response else response
  if strEndsWith r1 "OK\r\n" then pyDropLast4 r1 else r1

/-- `CoolMaster.devices`: issue `stat2`, split the stripped response on
`\r\n`, and build one device per line from its first three characters. -/
def devices (resp : Responder) (auto_update : Bool) :
    Except CMError (List DeviceState) × List String :=
  match resp "stat2" with
  | .error te => (.error (.transport te), ["stat2"])
  | .ok r =>
    (.ok ((splitOnCRLF (pyStrip r)).map (fun line => initDevice (pyTake3 line) auto_update)),
     ["stat2"])

/-! ### Concrete bridge oracles used by witnesses -/

/-- A bridge oracle for a device `101` that is off, in celsius, with swing
set to horizontal (the spec's worked example status line). -/
def respDry : Responder := fun req =>
  if req = "stat2 101" then .ok "101 OFF 32C 04,93C Low  Dry  OK 1"
  else if req = "query 101 s" then .ok "h"
  else .error (.ioError "unexpected request")

/-- A bridge oracle for a device `102` that is on, in imperial units, with an
empty swing response. -/
def respImperial : Responder := fun req =>
  if req = "stat2 102" then .ok "102 ON 71F 68,5F High Cool OK 1"
  else if req = "query 102 s" then .ok ""
  else .error .timeout

/-- A bridge oracle whose status line carries `on` in lowercase. -/
def respLowerOn : Responder := fun req =>
  if req = "stat2 103" then .ok "103 on 25C 22,0C Med Heat OK 1"
  else if req = "query 103 s" then .ok "-"
  else .error .timeout

/-- A bridge oracle whose status line has only two fields. -/
def respShort : Responder := fun req =>
  if req = "stat2 104" then .ok "104 OFF" else .error .timeout

/-- A bridge oracle that acknowledges every request with an empty body. -/
def respAck : Responder := fun _ => .ok ""

/-- A bridge oracle whose `stat2` enumeration response lists two units. -/
def respDevices : Responder := fun req =>
  if req = "stat2" then .ok "101 x\r\n102 y" else .error .timeout

/-- A device state holding a fully populated cached snapshot. -/
def devC1 : DeviceState :=
  { uid := "101", last_refresh_time := 50, auto_update := true,
    is_on := some true, unit := some "celsius", thermostat := some 25,
    temperature := some 22, fan_speed := some "high", mode := some "cool",
    swing_mode := some (some "auto") }

/-- A bridge oracle whose status request succeeds but whose swing request
fails with a transport error. -/
def respSwingFail : Responder := fun req =>
  if req = "stat2 101" then .ok "101 OFF 32C 04,93C Low  Dry  OK 1"
  else .error (.ioError "link down")

/-- A bridge oracle whose swing query answers with an unrecognized
character. -/
def respBadSwing : Responder := fun req =>
  if req = "stat2 101" then .ok "101 OFF 32C 04,93C Low  Dry  OK 1"
  else .ok "z"

/-! ### Helper lemmas about the refresh and the mutating commands -/

/-- Case analysis of `update_status`: on success the trace is exactly the
status request followed by the swing request and the timestamp becomes `now`;
on any failure the timestamp is untouched; the unexpected-status-line-format
error arises exactly from a non-8-field response; and a successful refresh
with an empty swing response leaves `swing_mode` holding Python `None`. -/
theorem update_status_shape (resp : Responder) (now : ℚ) (s : DeviceState) :
    ((update_status resp now s).1 = none →
      (update_status resp now s).2.2 = ["stat2 " ++ s.uid, "query " ++ s.uid ++ " s"] ∧
      (update_status resp now s).2.1.last_refresh_time = now) ∧
    (∀ e, (update_status resp now s).1 = some e →
      (update_status resp now s).2.1.last_refresh_time = s.last_refresh_time) ∧
    (∀ fs, (update_status resp now s).1 = some (.statusFormatError fs) →
      fs.length ≠ 8 ∧ ∃ line, resp ("stat2 " ++ s.uid) = .ok line ∧ reSplitWs (pyStrip line) = fs) ∧
    ((update_status resp now s).1 = none → resp ("query " ++ s.uid ++ " s") = .ok "" →
      (update_status resp now s).2.1.swing_mode = some none) := by
  unfold update_status
  dsimp only []
  rcases h1 : resp ("stat2 " ++ s.uid) with te | line
  · simp
  · dsimp only []
    by_cases h8 : (reSplitWs (pyStrip line)).length = 8
    · rw [if_neg (by simp [h8])]
      rcases h2 : pyLast ((reSplitWs (pyStrip line)).getD 2 "") with _ | c2
      · simp
      · dsimp only []
        rcases h3 : parseFloat (pyDropLast ((reSplitWs (pyStrip line)).getD 2 "")) with _ | th
        · simp
        · dsimp only []
          rcases h4 : parseFloat (commaToDot (pyDropLast ((reSplitWs (pyStrip line)).getD 3 ""))) with _ | te
          · simp
          · dsimp only []
            rcases h5 : resp ("query " ++ s.uid ++ " s") with e | swing_line
            · simp
            · dsimp only []
              by_cases h6 : swing_line = ""
              · rw [if_pos h6]
                refine ⟨fun _ => ⟨rfl, rfl⟩, by simp, by simp, fun _ _ => rfl⟩
              · rw [if_neg h6]
                rcases h7 : swingCharToName (pyStrip swing_line) with _ | nm
                · simp
                · dsimp only []
                  refine ⟨fun _ => ⟨rfl, rfl⟩, by simp, by simp, fun _ hq => ?_⟩
                  injection hq with h
                  exact absurd h h6
    · rw [if_pos h8]
      refine ⟨by simp, by simp, fun fs hfs => ?_, by simp⟩
      obtain rfl : reSplitWs (pyStrip line) = fs := by
        injection hfs with h
        injection h
      exact ⟨h8, line, rfl, rfl⟩

/-- A failing status request aborts the refresh before any assignment. -/
theorem update_status_transport_fail (resp : Responder) (now : ℚ) (s : DeviceState)
    (te : TransportError) (h : resp ("stat2 " ++ s.uid) = .error te) :
    update_status resp now s = (some (.transport te), s, ["stat2 " ++ s.uid]) := by
  unfold update_status
  dsimp only []
  rw [h]

/-- A status response with a field count other than 8 aborts the refresh
before any assignment. -/
theorem update_status_bad_field_count (resp : Responder) (now : ℚ) (s : DeviceState)
    (line : String) (h : resp ("stat2 " ++ s.uid) = .ok line)
    (hne : (reSplitWs (pyStrip line)).length ≠ 8) :
    update_status resp now s =
      (some (.statusFormatError (reSplitWs (pyStrip line))), s, ["stat2 " ++ s.uid]) := by
  unfold update_status
  dsimp only []
  rw [h]
  dsimp only []
  rw [if_pos hne]

/-- A refresh whose status line parses but whose swing request fails with a
transport error propagates that error after the six status-derived fields
have already been overwritten; the previous swing mode and the last-refresh
timestamp are retained (the record update below leaves `swing_mode` and
`last_refresh_time` at their old values, exactly as the source does: line
151's `self._swing_mode = None` runs only after the swing request returns). -/
theorem update_status_swing_transport_fail (resp : Responder) (now : ℚ) (s : DeviceState)
    (line : String) (c2 : Char) (th te : ℚ) (e : TransportError)
    (hline : resp ("stat2 " ++ s.uid) = .ok line)
    (h8 : (reSplitWs (pyStrip line)).length = 8)
    (hc2 : pyLast ((reSplitWs (pyStrip line)).getD 2 "") = some c2)
    (hth : parseFloat (pyDropLast ((reSplitWs (pyStrip line)).getD 2 "")) = some th)
    (hte : parseFloat (commaToDot (pyDropLast ((reSplitWs (pyStrip line)).getD 3 ""))) = some te)
    (hq : resp ("query " ++ s.uid ++ " s") = .error e) :
    update_status resp now s =
      (some (.transport e),
       { s with is_on := some ((reSplitWs (pyStrip line)).getD 1 "" = "ON"),
                unit := some (if c2 = 'F' then "imperial" else "celsius"),
                thermostat := some th, temperature := some te,
                fan_speed := some (pyLower ((reSplitWs (pyStrip line)).getD 4 "")),
                mode := some (pyLower ((reSplitWs (pyStrip line)).getD 5 "")) },
       ["stat2 " ++ s.uid, "query " ++ s.uid ++ " s"]) := by
  unfold update_status
  dsimp only []
  rw [hline]
  dsimp only []
  rw [if_neg (by simp [h8]), hc2]
  dsimp only []
  rw [hth]
  dsimp only []
  rw [hte]
  dsimp only []
  rw [hq]

/-- A refresh whose swing response is a non-empty unrecognized character
fails with the lookup's KeyError after the six status-derived fields have
been overwritten AND the swing mode has been reset to Python `None` (the
`self._swing_mode = None` of line 151 runs before the lookup of line 153);
the last-refresh timestamp alone is retained. -/
theorem update_status_swing_keyerror (resp : Responder) (now : ℚ) (s : DeviceState)
    (line swing_line : String) (c2 : Char) (th te : ℚ)
    (hline : resp ("stat2 " ++ s.uid) = .ok line)
    (h8 : (reSplitWs (pyStrip line)).length = 8)
    (hc2 : pyLast ((reSplitWs (pyStrip line)).getD 2 "") = some c2)
    (hth : parseFloat (pyDropLast ((reSplitWs (pyStrip line)).getD 2 "")) = some th)
    (hte : parseFloat (commaToDot (pyDropLast ((reSplitWs (pyStrip line)).getD 3 ""))) = some te)
    (hq : resp ("query " ++ s.uid ++ " s") = .ok swing_line)
    (hemp : swing_line ≠ "")
    (hk : swingCharToName (pyStrip swing_line) = none) :
    update_status resp now s =
      (some (.keyError (pyStrip swing_line)),
       { s with is_on := some ((reSplitWs (pyStrip line)).getD 1 "" = "ON"),
                unit := some (if c2 = 'F' then "imperial" else "celsius"),
                thermostat := some th, temperature := some te,
                fan_speed := some (pyLower ((reSplitWs (pyStrip line)).getD 4 "")),
                mode := some (pyLower ((reSplitWs (pyStrip line)).getD 5 "")),
                swing_mode := some none },
       ["stat2 " ++ s.uid, "query " ++ s.uid ++ " s"]) := by
  unfold update_status
  dsimp only []
  rw [hline]
  dsimp only []
  rw [if_neg (by simp [h8]), hc2]
  dsimp only []
  rw [hth]
  dsimp only []
  rw [hte]
  dsimp only []
  rw [hq]
  dsimp only []
  rw [if_neg hemp, hk]

/-- Case analysis of the shared send-then-clear shape of the mutating
commands. -/
theorem sendAndClear_shape (resp : Responder) (s : DeviceState) (fmt : String) :
    (sendAndClear resp s fmt).2.2 = [replaceUID fmt s.uid] ∧
    ((sendAndClear resp s fmt).1 = none → (sendAndClear resp s fmt).2.1 = clear_status s) ∧
    (∀ e, (sendAndClear resp s fmt).1 = some e →
      (∃ te, e = .transport te) ∧ (sendAndClear resp s fmt).2.1 = s) ∧
    (∀ r, resp (replaceUID fmt s.uid) = .ok r →
      sendAndClear resp s fmt = (none, clear_status s, [replaceUID fmt s.uid])) := by
  unfold sendAndClear
  dsimp only []
  rcases h : resp (replaceUID fmt s.uid) with te | r
  · refine ⟨rfl, by simp, fun e he => ?_, fun r hr => by cases hr⟩
    injection he with he2
    exact ⟨⟨te, he2.symm⟩, rfl⟩
  · exact ⟨rfl, fun _ => rfl, by simp, fun r2 hr => rfl⟩

/-- `endswith` holds across an append when the suffix is a suffix of the
right part. -/
theorem strEndsWith_append (s t u : String) (h : u.data <:+ t.data) :
    strEndsWith (s ++ t) u = true := by
  unfold strEndsWith
  rw [List.isSuffixOf_iff_suffix, String.data_append]
  exact h.trans (List.suffix_append s.data t.data)

/-- `s[:-1]` across an append whose right part ends in one character. -/
theorem pyDropLast_append (s t : String) (t' : List Char) (c : Char)
    (ht : t.data = t' ++ [c]) : pyDropLast (s ++ t) = String.mk (s.data ++ t') := by
  unfold pyDropLast
  apply String.ext
  show (s ++ t).data.dropLast = s.data ++ t'
  rw [String.data_append, ht, ← List.append_assoc, List.dropLast_concat]

/-- `s[:-4]` across an append whose right part has exactly four characters. -/
theorem pyDropLast4_append (s t : String) (ht : t.data.length = 4) :
    pyDropLast4 (s ++ t) = s := by
  unfold pyDropLast4
  apply String.ext
  show (s ++ t).data.take ((s ++ t).data.length - 4) = s.data
  rw [String.data_append]
  have hlen : (s.data ++ t.data).length - 4 = s.data.length := by
    simp [List.length_append, ht]
  rw [hlen, List.take_left]

/-! ### The claims -/

/-- C1 (counterexample): the cached snapshot is NOT committed atomically.
With a cached snapshot present, a refresh whose status request succeeds but
whose swing request fails propagates the error, yet the status-derived
fields have already been overwritten: `is_on` flips from `some true` to
`some false` even though the refresh failed. -/
theorem C1_counterexample :
    let s0 : DeviceState :=
      { uid := "101", last_refresh_time := 50, auto_update := true,
        is_on := some true, unit := some "celsius", thermostat := some 25,
        temperature := some 22, fan_speed := some "high", mode := some "cool",
        swing_mode := some (some "auto") }
    let resp : Responder := fun req =>
      if req = "stat2 101" then .ok "101 OFF 32C 04,93C Low  Dry  OK 1"
      else .error (.ioError "link down")
    (update_status resp 100 s0).1 = some (.transport (.ioError "link down")) ∧
    (update_status resp 100 s0).2.1.is_on = some false ∧
    s0.is_on = some true := by
  decide

/-- C1 (amended): a failure of the status request, or a response with the
wrong field count, leaves the previous cached snapshot entirely untouched and
propagates the error.  A failure in the swing step also propagates the
error, but the six status-derived fields have already been overwritten: on a
swing transport error the previous swing mode is retained (the record update
in the third conjunct leaves `swing_mode` at its old value), while an
unrecognized swing character leaves the swing mode reset to Python `None`.
In every failure the last-refresh timestamp is untouched; it advances to the
current time exactly when both steps succeed. -/
theorem C1_refresh_failure_effects (resp : Responder) (now : ℚ) (s : DeviceState) :
    (∀ te, resp ("stat2 " ++ s.uid) = .error te →
      update_status resp now s = (some (.transport te), s, ["stat2 " ++ s.uid])) ∧
    (∀ line, resp ("stat2 " ++ s.uid) = .ok line → (reSplitWs (pyStrip line)).length ≠ 8 →
      update_status resp now s =
        (some (.statusFormatError (reSplitWs (pyStrip line))), s, ["stat2 " ++ s.uid])) ∧
    (∀ line c2 th te e, resp ("stat2 " ++ s.uid) = .ok line →
      (reSplitWs (pyStrip line)).length = 8 →
      pyLast ((reSplitWs (pyStrip line)).getD 2 "") = some c2 →
      parseFloat (pyDropLast ((reSplitWs (pyStrip line)).getD 2 "")) = some th →
      parseFloat (commaToDot (pyDropLast ((reSplitWs (pyStrip line)).getD 3 ""))) = some te →
      resp ("query " ++ s.uid ++ " s") = .error e →
      update_status resp now s =
        (some (.transport e),
         { s with is_on := some ((reSplitWs (pyStrip line)).getD 1 "" = "ON"),
                  unit := some (if c2 = 'F' then "imperial" else "celsius"),
                  thermostat := some th, temperature := some te,
                  fan_speed := some (pyLower ((reSplitWs (pyStrip line)).getD 4 "")),
                  mode := some (pyLower ((reSplitWs (pyStrip line)).getD 5 "")) },
         ["stat2 " ++ s.uid, "query " ++ s.uid ++ " s"])) ∧
    (∀ line swing_line c2 th te, resp ("stat2 " ++ s.uid) = .ok line →
      (reSplitWs (pyStrip line)).length = 8 →
      pyLast ((reSplitWs (pyStrip line)).getD 2 "") = some c2 →
      parseFloat (pyDropLast ((reSplitWs (pyStrip line)).getD 2 "")) = some th →
      parseFloat (commaToDot (pyDropLast ((reSplitWs (pyStrip line)).getD 3 ""))) = some te →
      resp ("query " ++ s.uid ++ " s") = .ok swing_line → swing_line ≠ "" →
      swingCharToName (pyStrip swing_line) = none →
      update_status resp now s =
        (some (.keyError (pyStrip swing_line)),
         { s with is_on := some ((reSplitWs (pyStrip line)).getD 1 "" = "ON"),
                  unit := some (if c2 = 'F' then "imperial" else "celsius"),
                  thermostat := some th, temperature := some te,
                  fan_speed := some (pyLower ((reSplitWs (pyStrip line)).getD 4 "")),
                  mode := some (pyLower ((reSplitWs (pyStrip line)).getD 5 "")),
                  swing_mode := some none },
         ["stat2 " ++ s.uid, "query " ++ s.uid ++ " s"])) ∧
    (∀ e, (update_status resp now s).1 = some e →
      (update_status resp now s).2.1.last_refresh_time = s.last_refresh_time) ∧
    ((update_status resp now s).1 = none →
      (update_status resp now s).2.1.last_refresh_time = now) :=
  ⟨fun te h => update_status_transport_fail resp now s te h,
   fun line h hne => update_status_bad_field_count resp now s line h hne,
   fun line c2 th te e h1 h2 h3 h4 h5 h6 =>
     update_status_swing_transport_fail resp now s line c2 th te e h1 h2 h3 h4 h5 h6,
   fun line swing_line c2 th te h1 h2 h3 h4 h5 h6 h7 h8 =>
     update_status_swing_keyerror resp now s line swing_line c2 th te h1 h2 h3 h4 h5 h6 h7 h8,
   (update_status_shape resp now s).2.1,
   fun h => ((update_status_shape resp now s).1 h).2⟩

section RatReducibleWitness

set_option allowUnsafeReducibility true
attribute [local semireducible] Rat.mul Rat.add Rat.sub Rat.inv Rat.ofScientific

/-- C1 (witness): the amended theorem applied to a failing status request,
to a malformed status line, to a swing request failing with a transport
error (six fields overwritten, old swing mode retained), and to an
unrecognized swing character (six fields overwritten, swing mode `None`). -/
theorem C1_witness :
    update_status respShort 5 (initDevice "999" true) =
      (some (.transport .timeout), initDevice "999" true, ["stat2 " ++ "999"]) ∧
    (update_status respShort 6 (initDevice "104" true)).2.1.last_refresh_time = 0 ∧
    update_status respSwingFail 100 devC1 =
      (some (.transport (.ioError "link down")),
       { devC1 with is_on := some false, unit := some "celsius",
                    thermostat := some 32, temperature := some (4.93 : ℚ),
                    fan_speed := some "low", mode := some "dry" },
       ["stat2 101", "query 101 s"]) ∧
    (update_status respSwingFail 100 devC1).2.1.swing_mode = some (some "auto") ∧
    (update_status respBadSwing 100 devC1).2.1.swing_mode = some none ∧
    (update_status respBadSwing 100 devC1).1 = some (.keyError "z") := by
  have hswing := (C1_refresh_failure_effects respSwingFail 100 devC1).2.2.1
    "101 OFF 32C 04,93C Low  Dry  OK 1" 'C' 32 (4.93 : ℚ) (.ioError "link down")
    rfl (by decide) (by decide) (by decide) (by decide) rfl
  have hkey := (C1_refresh_failure_effects respBadSwing 100 devC1).2.2.2.1
    "101 OFF 32C 04,93C Low  Dry  OK 1" "z" 'C' 32 (4.93 : ℚ)
    rfl (by decide) (by decide) (by decide) (by decide) rfl (by decide) (by decide)
  refine ⟨(C1_refresh_failure_effects respShort 5 (initDevice "999" true)).1 .timeout rfl,
    (C1_refresh_failure_effects respShort 6 (initDevice "104" true)).2.2.2.2.1
      (.statusFormatError ["104", "OFF"]) (by decide), ?_, ?_, ?_, ?_⟩
  · rw [hswing]; decide
  · rw [hswing]; decide
  · rw [hkey]
  · rw [hkey]; decide

end RatReducibleWitness

section RatReducible

set_option allowUnsafeReducibility true
attribute [local semireducible] Rat.mul Rat.add Rat.sub Rat.inv Rat.ofScientific

/-- C2: the worked status line `101 OFF 32C 04,93C Low  Dry  OK 1` parses to
off / celsius / thermostat 32 / temperature 4.93 / fan "low" / mode "dry";
a line with a trailing `F` unit suffix parses to imperial with the suffix
stripped and the decimal comma normalized; and an `on`/`ON` case mismatch
parses as not-on (the comparison is case-sensitive). -/
theorem C2_status_line_parse :
    (let r := update_status respDry 7 (initDevice "101" true)
     r.1 = none ∧
     r.2.1.is_on = some false ∧
     r.2.1.unit = some "celsius" ∧
     r.2.1.thermostat = some 32 ∧
     r.2.1.temperature = some 4.93 ∧
     r.2.1.fan_speed = some "low" ∧
     r.2.1.mode = some "dry") ∧
    (let r := update_status respImperial 7 (initDevice "102" true)
     r.2.1.is_on = some true ∧ r.2.1.unit = some "imperial" ∧
     r.2.1.thermostat = some 71 ∧ r.2.1.temperature = some 68.5) ∧
    (update_status respLowerOn 7 (initDevice "103" true)).2.1.is_on = some false := by
  decide

end RatReducible

/-- C3: with auto-update enabled, an accessor read strictly less than one
time unit after the last refresh issues no request and returns the cached
field; a read at least one time unit after the last refresh runs exactly one
refresh, which (when it completes) consists of exactly one status request
followed by one swing request, before the value is returned. -/
theorem C3_accessor_staleness {α : Type} (field : DeviceState → α) (resp : Responder)
    (now : ℚ) (s : DeviceState) (hau : s.auto_update = true) :
    (now - s.last_refresh_time < 1 →
      autoupdateGet field resp now s = (none, s, [], field s)) ∧
    (1 ≤ now - s.last_refresh_time →
      autoupdateGet field resp now s =
        ((update_status resp now s).1, (update_status resp now s).2.1,
          (update_status resp now s).2.2, field (update_status resp now s).2.1) ∧
      ((update_status resp now s).1 = none →
        (autoupdateGet field resp now s).2.2.1 =
          ["stat2 " ++ s.uid, "query " ++ s.uid ++ " s"])) := by
  constructor
  · intro hlt
    unfold autoupdateGet update_if_needed
    rw [if_neg (fun hc => (not_le.mpr hlt) hc.2)]
  · intro hge
    have hcond : s.auto_update = true ∧ 1 ≤ now - s.last_refresh_time := ⟨hau, hge⟩
    rcases hu : update_status resp now s with ⟨e, s2, tr⟩
    constructor
    · unfold autoupdateGet update_if_needed
      rw [if_pos hcond, hu]
    · intro hok
      have h1 := ((update_status_shape resp now s).1 (by rw [hu]; exact hok)).1
      rw [hu] at h1
      unfold autoupdateGet update_if_needed
      rw [if_pos hcond, hu]
      exact h1

/-- C3 (witness): the staleness guard evaluated on both sides of the
threshold for the device of `respDry`. -/
theorem C3_witness :
    autoupdateGet DeviceState.mode respDry (1/2 : ℚ) (initDevice "101" true) =
      (none, initDevice "101" true, [], none) ∧
    (autoupdateGet DeviceState.mode respDry 11 (initDevice "101" true)).2.2.1 =
      ["stat2 " ++ "101", "query " ++ "101" ++ " s"] := by
  constructor
  · exact (C3_accessor_staleness DeviceState.mode respDry (1/2 : ℚ)
      (initDevice "101" true) rfl).1 (by norm_num [initDevice])
  · exact ((C3_accessor_staleness DeviceState.mode respDry 11
      (initDevice "101" true) rfl).2 (by norm_num [initDevice])).2 (by decide)

/-- C4 (counterexample): the code does not strip a bare trailing `>`; it
strips the final character only when the response ends with the full
`\r\n>` sequence.  On the response `abc>` the claimed procedure yields
`abc`, but the code returns `abc>` unchanged. -/
theorem C4_counterexample :
    stripResponse "abc>" = "abc>" ∧ stripResponseSpec "abc>" = "abc" ∧
    stripResponse "abc>" ≠ stripResponseSpec "abc>" := by
  decide

/-- C4 (amended): the returned body is computed by dropping the trailing `>`
only when the response ends with the full `\r\n>` sequence, then stripping a
trailing `OK` CR LF marker if the remaining text ends with it; a response
carrying neither marker is returned as read. -/
theorem C4_response_stripping :
    (∀ body : String, stripResponse (body ++ "OK\r\n>") = body) ∧
    (∀ body : String, strEndsWith (body ++ "\r\n") "OK\r\n" = false →
      stripResponse (body ++ "\r\n>") = body ++ "\r\n") ∧
    (∀ r : String, strEndsWith r "\r\n>" = false → strEndsWith r "OK\r\n" = false →
      stripResponse r = r) := by
  refine ⟨fun body => ?_, fun body hno => ?_, fun r h1 h2 => ?_⟩
  · unfold stripResponse
    dsimp only []
    rw [if_pos (strEndsWith_append body "OK\r\n>" "\r\n>" (by decide))]
    have hdrop : pyDropLast (body ++ "OK\r\n>") = body ++ "OK\r\n" := by
      rw [pyDropLast_append body "OK\r\n>" ['O', 'K', '\r', '\n'] '>' rfl]
      apply String.ext
      show body.data ++ ['O', 'K', '\r', '\n'] = (body ++ "OK\r\n").data
      rw [String.data_append]
    rw [hdrop, if_pos (strEndsWith_append body "OK\r\n" "OK\r\n" (List.suffix_refl _)),
      pyDropLast4_append body "OK\r\n" rfl]
  · unfold stripResponse
    dsimp only []
    rw [if_pos (strEndsWith_append body "\r\n>" "\r\n>" (List.suffix_refl _))]
    have hdrop : pyDropLast (body ++ "\r\n>") = body ++ "\r\n" := by
      rw [pyDropLast_append body "\r\n>" ['\r', '\n'] '>' rfl]
      apply String.ext
      show body.data ++ ['\r', '\n'] = (body ++ "\r\n").data
      rw [String.data_append]
    rw [hdrop, if_neg (by simp [hno])]
  · unfold stripResponse
    dsimp only []
    rw [if_neg (show ¬ strEndsWith r "\r\n>" = true by simp [h1])]
    rw [if_neg (show ¬ strEndsWith r "OK\r\n" = true by simp [h2])]

/-- C4 (witness): the amended stripping behaviour on three concrete
responses. -/
theorem C4_witness :
    stripResponse ("body " ++ "OK\r\n>") = "body " ∧
    stripResponse ("line1" ++ "\r\n>") = "line1" ++ "\r\n" ∧
    stripResponse "bare" = "bare" :=
  ⟨C4_response_stripping.1 "body ",
   C4_response_stripping.2.1 "line1" (by decide),
   C4_response_stripping.2.2 "bare" (by decide) (by decide)⟩

/-- C5: a `stat2 <uid>` response whose whitespace tokenization has other
than exactly 8 fields makes the refresh fail with the
unexpected-status-line-format error before any cached field is assigned
(the state is returned unchanged and the error surfaces); with exactly 8
fields that error is never raised. -/
theorem C5_status_field_count (resp : Responder) (now : ℚ) (s : DeviceState)
    (line : String) (h : resp ("stat2 " ++ s.uid) = .ok line) :
    ((reSplitWs (pyStrip line)).length ≠ 8 →
      update_status resp now s =
        (some (.statusFormatError (reSplitWs (pyStrip line))), s, ["stat2 " ++ s.uid])) ∧
    ((reSplitWs (pyStrip line)).length = 8 →
      ∀ fs, (update_status resp now s).1 ≠ some (.statusFormatError fs)) := by
  constructor
  · exact fun hne => update_status_bad_field_count resp now s line h hne
  · intro h8 fs hcontra
    obtain ⟨hne, line2, hline2, hfs⟩ := (update_status_shape resp now s).2.2.1 fs hcontra
    rw [h] at hline2
    injection hline2 with hl
    rw [← hl] at hfs
    rw [← hfs] at hne
    exact hne h8

/-- C5 (witness): a two-field status line fails with the format error and
leaves the state unchanged; the 8-field example line never produces it. -/
theorem C5_witness :
    update_status respShort 3 (initDevice "104" true) =
      (some (.statusFormatError (reSplitWs (pyStrip "104 OFF"))), initDevice "104" true,
        ["stat2 " ++ "104"]) ∧
    (update_status respDry 3 (initDevice "101" true)).1 ≠ some (.statusFormatError []) := by
  constructor
  · exact (C5_status_field_count respShort 3 (initDevice "104" true) "104 OFF" rfl).1 (by decide)
  · exact (C5_status_field_count respDry 3 (initDevice "101" true)
      "101 OFF 32C 04,93C Low  Dry  OK 1" rfl).2 (by decide) []

/-- C6: the swing tables map `h` to "horizontal" and `-` to Python `None`;
an empty swing response leaves the device's swing mode as `None`; and the
name-to-char-to-name round trip is the identity on every named non-none
swing mode in the table. -/
theorem C6_swing_mappings :
    swingCharToName "h" = some (some "horizontal") ∧
    swingCharToName "-" = some none ∧
    (∀ p ∈ SWING_NAME_TO_CHAR, swingCharToName p.2 = some (some p.1)) ∧
    (∀ (resp : Responder) (now : ℚ) (s : DeviceState),
      (update_status resp now s).1 = none →
      resp ("query " ++ s.uid ++ " s") = .ok "" →
      (update_status resp now s).2.1.swing_mode = some none) :=
  ⟨by decide, by decide, by decide,
   fun resp now s h1 h2 => (update_status_shape resp now s).2.2.2 h1 h2⟩

/-- C6 (witness): the round trip at "auto", and the empty-swing-response
case on a successful refresh of device `102`. -/
theorem C6_witness :
    swingCharToName "a" = some (some "auto") ∧
    (update_status respImperial 9 (initDevice "102" true)).2.1.swing_mode = some none := by
  constructor
  · exact C6_swing_mappings.2.2.1 ("auto", "a") (by decide)
  · exact C6_swing_mappings.2.2.2 respImperial 9 (initDevice "102" true) (by decide) rfl

/-- C7: every successful mutating command resets the last-refresh timestamp
to 0, and a device whose timestamp is 0 refreshes on the next accessor read
with auto-update enabled (the staleness guard `now - 0 >= 1` holds at any
realistic wall-clock instant `now >= 1`, however small the time elapsed
since the previous refresh). -/
theorem C7_mutation_invalidates_cache (resp : Responder) (s : DeviceState) (v : String) :
    ((turn_on resp s).1 = none → (turn_on resp s).2.1.last_refresh_time = 0) ∧
    ((turn_off resp s).1 = none → (turn_off resp s).2.1.last_refresh_time = 0) ∧
    (MODES.contains v = true → (set_mode resp s v).1 = none →
      (set_mode resp s v).2.1.last_refresh_time = 0) ∧
    ((set_fan_speed resp s v).1 = none → (set_fan_speed resp s v).2.1.last_refresh_time = 0) ∧
    ((set_thermostat resp s v).1 = none →
      (set_thermostat resp s v).2.1.last_refresh_time = 0) ∧
    (∀ c, swingNameToChar v = some c → (set_swing resp s v).1 = none →
      (set_swing resp s v).2.1.last_refresh_time = 0) ∧
    (∀ (resp2 : Responder) (now : ℚ) (s2 : DeviceState),
      s2.auto_update = true → s2.last_refresh_time = 0 → 1 ≤ now →
      update_if_needed resp2 now s2 = update_status resp2 now s2) := by
  refine ⟨fun h => ?_, fun h => ?_, fun hv h => ?_, fun h => ?_, fun h => ?_,
    fun c hc h => ?_, fun resp2 now s2 hau hzero hnow => ?_⟩
  · unfold turn_on at h ⊢
    rw [(sendAndClear_shape resp s "on UID").2.1 h]
    rfl
  · unfold turn_off at h ⊢
    rw [(sendAndClear_shape resp s "off UID").2.1 h]
    rfl
  · unfold set_mode at h ⊢
    rw [if_pos hv] at h ⊢
    rw [(sendAndClear_shape resp s (v ++ " UID")).2.1 h]
    rfl
  · unfold set_fan_speed at h ⊢
    rw [(sendAndClear_shape resp s ("fspeed UID " ++ v)).2.1 h]
    rfl
  · unfold set_thermostat at h ⊢
    rw [(sendAndClear_shape resp s ("temp UID " ++ v)).2.1 h]
    rfl
  · unfold set_swing at h ⊢
    rw [hc] at h ⊢
    rw [(sendAndClear_shape resp s ("swing UID " ++ c)).2.1 h]
    rfl
  · unfold update_if_needed
    rw [if_pos ⟨hau, by rw [hzero, sub_zero]; exact hnow⟩]

/-- C7 (witness): `turn_on` resets the timestamp, and a zero timestamp makes
the staleness guard take the refresh branch. -/
theorem C7_witness :
    (turn_on respAck (initDevice "101" true)).2.1.last_refresh_time = 0 ∧
    update_if_needed respAck 5 (initDevice "101" true) =
      update_status respAck 5 (initDevice "101" true) := by
  constructor
  · exact (C7_mutation_invalidates_cache respAck (initDevice "101" true) "").1 (by decide)
  · exact (C7_mutation_invalidates_cache respAck (initDevice "101" true) "").2.2.2.2.2.2
      respAck 5 (initDevice "101" true) rfl rfl (by norm_num)

/-- C8: `set_mode` and `set_swing` reject any argument outside their
enumerated sets with a ValueError whose message lists the valid values,
without issuing any request and without touching the device state (so the
last-refresh timestamp is unchanged); "bogus" is outside both sets. -/
theorem C8_invalid_argument_rejection (resp : Responder) (s : DeviceState) (v : String) :
    (MODES.contains v = false →
      set_mode resp s v =
        (some (.valueError ("Unrecognized mode " ++ v ++ ". Valid values: " ++
          String.intercalate " " MODES)), s, [])) ∧
    (swingNameToChar v = none →
      set_swing resp s v =
        (some (.valueError ("Unrecognized swing mode " ++ v ++ ". Valid values: " ++
          String.intercalate " " (SWING_NAME_TO_CHAR.map Prod.fst))), s, [])) ∧
    MODES.contains "bogus" = false ∧ swingNameToChar "bogus" = none := by
  refine ⟨fun hv => ?_, fun hv => ?_, by decide, by decide⟩
  · unfold set_mode
    rw [if_neg (show ¬ MODES.contains v = true by rw [hv]; simp)]
  · unfold set_swing
    rw [hv]

/-- C8 (witness): both rejections evaluated at the argument "bogus". -/
theorem C8_witness :
    set_mode respAck (initDevice "101" true) "bogus" =
      (some (.valueError "Unrecognized mode bogus. Valid values: auto cool dry fan heat"),
        initDevice "101" true, []) ∧
    set_swing respAck (initDevice "101" true) "bogus" =
      (some (.valueError
        "Unrecognized swing mode bogus. Valid values: auto horizontal 30 45 60 vertical"),
        initDevice "101" true, []) := by
  constructor
  · rw [(C8_invalid_argument_rejection respAck (initDevice "101" true) "bogus").1 rfl]
    decide
  · rw [(C8_invalid_argument_rejection respAck (initDevice "101" true) "bogus").2.1 rfl]
    decide

/-- C9 (counterexample): `devices` raises no error on a response line
shorter than 3 characters; the 2-character line `ab` yields a device whose
uid is the whole line. -/
theorem C9_counterexample :
    devices (fun req => if req = "stat2" then .ok "ab" else .error .timeout) true =
      (.ok [initDevice "ab" true], ["stat2"]) ∧ ("ab" : String).length < 3 := by
  exact ⟨rfl, by decide⟩

/-- C9 (amended): `devices` issues `stat2`, splits the stripped response
into `\r\n` lines, and returns one device per line in line order whose uid
is the line's first up-to-3 characters (at most 3, shorter lines giving
shorter uids, never an error). -/
theorem C9_devices_parsing (resp : Responder) (au : Bool) (r : String)
    (h : resp "stat2" = .ok r) :
    devices resp au =
      (.ok ((splitOnCRLF (pyStrip r)).map (fun line => initDevice (pyTake3 line) au)),
        ["stat2"]) ∧
    ∀ line, (initDevice (pyTake3 line) au).uid.length ≤ 3 := by
  constructor
  · unfold devices
    rw [h]
  · intro line
    show (line.data.take 3).length ≤ 3
    simp [List.length_take]

/-- C9 (witness): the amended enumeration applied to a two-line response. -/
theorem C9_witness :
    devices respDevices true =
      (.ok ((splitOnCRLF (pyStrip "101 x\r\n102 y")).map
        (fun line => initDevice (pyTake3 line) true)), ["stat2"]) :=
  (C9_devices_parsing respDevices true "101 x\r\n102 y" rfl).1

/-- C10: `set_fan_speed` and `set_thermostat` validate nothing: for every
argument string whatsoever they issue exactly the formatted command (with
`UID` substituted), reset the last-refresh timestamp to 0 on success, and
the only possible failure is the transport's own — never a ValueError raised
by the device code. -/
theorem C10_unvalidated_setters (resp : Responder) (s : DeviceState) (v : String) :
    ((set_fan_speed resp s v).2.2 = [replaceUID ("fspeed UID " ++ v) s.uid]) ∧
    ((set_thermostat resp s v).2.2 = [replaceUID ("temp UID " ++ v) s.uid]) ∧
    (∀ r, resp (replaceUID ("fspeed UID " ++ v) s.uid) = .ok r →
      set_fan_speed resp s v =
        (none, clear_status s, [replaceUID ("fspeed UID " ++ v) s.uid])) ∧
    (∀ r, resp (replaceUID ("temp UID " ++ v) s.uid) = .ok r →
      set_thermostat resp s v =
        (none, clear_status s, [replaceUID ("temp UID " ++ v) s.uid])) ∧
    (∀ e, (set_fan_speed resp s v).1 = some e → ∃ te, e = .transport te) ∧
    (∀ e, (set_thermostat resp s v).1 = some e → ∃ te, e = .transport te) ∧
    (clear_status s).last_refresh_time = 0 :=
  ⟨(sendAndClear_shape resp s ("fspeed UID " ++ v)).1,
   (sendAndClear_shape resp s ("temp UID " ++ v)).1,
   fun r hr => (sendAndClear_shape resp s ("fspeed UID " ++ v)).2.2.2 r hr,
   fun r hr => (sendAndClear_shape resp s ("temp UID " ++ v)).2.2.2 r hr,
   fun e he => ((sendAndClear_shape resp s ("fspeed UID " ++ v)).2.2.1 e he).1,
   fun e he => ((sendAndClear_shape resp s ("temp UID " ++ v)).2.2.1 e he).1,
   rfl⟩

/-- C10 (witness): an out-of-enumeration fan speed and a non-numeric
thermostat value are both sent verbatim and reset the timestamp. -/
theorem C10_witness :
    set_fan_speed respAck (initDevice "101" true) "warp9" =
      (none, clear_status (initDevice "101" true),
        [replaceUID ("fspeed UID " ++ "warp9") "101"]) ∧
    set_thermostat respAck (initDevice "101" true) "not-a-number" =
      (none, clear_status (initDevice "101" true),
        [replaceUID ("temp UID " ++ "not-a-number") "101"]) :=
  ⟨(C10_unvalidated_setters respAck (initDevice "101" true) "warp9").2.2.1 "" rfl,
   (C10_unvalidated_setters respAck (initDevice "101" true) "not-a-number").2.2.2.1 "" rfl⟩
